import Mathlib

/-!
# OpenAuth — verification of the authorization/token/scope engine

Shallow embedding of the OpenAuth authorization server (Python/FastAPI) in
Lean 4, together with theorems settling the specification claims about the
PKCE authorization-code flow, refresh-token rotation and revocation, scope
validation, client schema validation, and profile provisioning.

Conventions:
* Python `bytes` are `List Nat` (each entry a byte value `< 256` where it
  matters); Python `str` values whose characters matter are `List Char`;
  opaque identifiers (usernames, client ids, token strings) are `String`.
* Machine-word arithmetic is `Nat` with explicit reduction `% 2^32`.
* Fallible external collaborators (the document store, bcrypt, Fernet, JWT
  signing) are parameters of the embedded functions; the embedded control
  flow is translated from the source.
-/

namespace OpenAuth

/-! ## SHA-256 (`hashlib.sha256`), big-endian, over byte lists -/

/-- Reduce to a 32-bit word. -/
def w32 (n : Nat) : Nat := n % 4294967296

/-- Right rotation of a 32-bit word by `s` places. -/
def rotr32 (s x : Nat) : Nat := w32 (x / 2 ^ s + x % 2 ^ s * 2 ^ (32 - s))

/-- Logical right shift. -/
def shr32 (s x : Nat) : Nat := x / 2 ^ s

/-- Bitwise complement on 32 bits. -/
def bnot32 (x : Nat) : Nat := Nat.xor x 4294967295

/-- SHA-256 `Ch` function. -/
def shaCh (x y z : Nat) : Nat := Nat.xor (Nat.land x y) (Nat.land (bnot32 x) z)

/-- SHA-256 `Maj` function. -/
def shaMaj (x y z : Nat) : Nat :=
  Nat.xor (Nat.xor (Nat.land x y) (Nat.land x z)) (Nat.land y z)

/-- SHA-256 `Σ₀`. -/
def bigSigma0 (x : Nat) : Nat := Nat.xor (rotr32 2 x) (Nat.xor (rotr32 13 x) (rotr32 22 x))

/-- SHA-256 `Σ₁`. -/
def bigSigma1 (x : Nat) : Nat := Nat.xor (rotr32 6 x) (Nat.xor (rotr32 11 x) (rotr32 25 x))

/-- SHA-256 `σ₀`. -/
def smallSigma0 (x : Nat) : Nat := Nat.xor (rotr32 7 x) (Nat.xor (rotr32 18 x) (shr32 3 x))

/-- SHA-256 `σ₁`. -/
def smallSigma1 (x : Nat) : Nat := Nat.xor (rotr32 17 x) (Nat.xor (rotr32 19 x) (shr32 10 x))

/-- The 64 SHA-256 round constants (FIPS 180-4), written in decimal. -/
def shaK : List Nat :=
  [1116352408, 1899447441, 3049323471, 3921009573,
   961987163, 1508970993, 2453635748, 2870763221,
   3624381080, 310598401, 607225278, 1426881987,
   1925078388, 2162078206, 2614888103, 3248222580,
   3835390401, 4022224774, 264347078, 604807628,
   770255983, 1249150122, 1555081692, 1996064986,
   2554220882, 2821834349, 2952996808, 3210313671,
   3336571891, 3584528711, 113926993, 338241895,
   666307205, 773529912, 1294757372, 1396182291,
   1695183700, 1986661051, 2177026350, 2456956037,
   2730485921, 2820302411, 3259730800, 3345764771,
   3516065817, 3600352804, 4094571909, 275423344,
   430227734, 506948616, 659060556, 883997877,
   958139571, 1322822218, 1537002063, 1747873779,
   1955562222, 2024104815, 2227730452, 2361852424,
   2428436474, 2756734187, 3204031479, 3329325298]

/-- Working state of the compression function: eight 32-bit words. -/
structure ShaState where
  a : Nat
  b : Nat
  c : Nat
  d : Nat
  e : Nat
  f : Nat
  g : Nat
  h : Nat

/-- SHA-256 initial hash value (FIPS 180-4), written in decimal. -/
def shaH0 : ShaState :=
  ⟨1779033703, 3144134277, 1013904242, 2773480762,
   1359893119, 2600822924, 528734635, 1541459225⟩

/-- One compression round with round constant `k` and schedule word `w`. -/
def shaRound (st : ShaState) (k w : Nat) : ShaState :=
  let t1 := w32 (st.h + bigSigma1 st.e + shaCh st.e st.f st.g + k + w)
  let t2 := w32 (bigSigma0 st.a + shaMaj st.a st.b st.c)
  ⟨w32 (t1 + t2), st.a, st.b, st.c, w32 (st.d + t1), st.e, st.f, st.g⟩

/-- Big-endian 4-byte serialization of a 32-bit word. -/
def be4 (n : Nat) : List Nat :=
  [n / 16777216 % 256, n / 65536 % 256, n / 256 % 256, n % 256]

/-- Big-endian 8-byte serialization of the 64-bit message length. -/
def be8 (n : Nat) : List Nat :=
  [n / 2 ^ 56 % 256, n / 2 ^ 48 % 256, n / 2 ^ 40 % 256, n / 2 ^ 32 % 256,
   n / 2 ^ 24 % 256, n / 2 ^ 16 % 256, n / 2 ^ 8 % 256, n % 256]

/-- Group a byte list into big-endian 32-bit words (16 per 64-byte block). -/
def toWords : List Nat → List Nat
  | a :: b :: c :: d :: rest => (a * 16777216 + b * 65536 + c * 256 + d) :: toWords rest
  | _ => []

/-- Extend the 16 block words to the 64-entry message schedule; `k` rounds remain. -/
def extendSchedule : Nat → List Nat → List Nat
  | 0, ws => ws
  | k + 1, ws =>
    let n := ws.length
    let w := w32 (smallSigma1 (ws.getD (n - 2) 0) + ws.getD (n - 7) 0 +
                  smallSigma0 (ws.getD (n - 15) 0) + ws.getD (n - 16) 0)
    extendSchedule k (ws ++ [w])

/-- Compress one 64-byte block into the running state. -/
def processBlock (st : ShaState) (block : List Nat) : ShaState :=
  let ws := extendSchedule 48 (toWords block)
  let t := (shaK.zip ws).foldl (fun s p => shaRound s p.1 p.2) st
  ⟨w32 (st.a + t.a), w32 (st.b + t.b), w32 (st.c + t.c), w32 (st.d + t.d),
   w32 (st.e + t.e), w32 (st.f + t.f), w32 (st.g + t.g), w32 (st.h + t.h)⟩

/-- SHA-256 padding: `0x80`, zeros to 56 mod 64, then the bit length big-endian. -/
def padMessage (m : List Nat) : List Nat :=
  m ++ [128] ++ List.replicate ((119 - m.length % 64) % 64) 0 ++ be8 (8 * m.length)

/-- Fold the compression function over the 64-byte blocks of a padded message.
The fuel is an upper bound on the number of blocks; `sha256Blocks` supplies
one unit per byte, which always suffices. -/
def sha256Go : Nat → ShaState → List Nat → ShaState
  | _, st, [] => st
  | 0, st, _ => st
  | fuel + 1, st, l => sha256Go fuel (processBlock st (l.take 64)) (l.drop 64)

/-- Fold the compression function over the 64-byte blocks of a padded message. -/
def sha256Blocks (st : ShaState) (l : List Nat) : ShaState :=
  sha256Go l.length st l

/-- `hashlib.sha256(message).digest()`: the 32-byte SHA-256 digest. -/
def sha256Bytes (m : List Nat) : List Nat :=
  let st := sha256Blocks shaH0 (padMessage m)
  be4 st.a ++ be4 st.b ++ be4 st.c ++ be4 st.d ++ be4 st.e ++ be4 st.f ++ be4 st.g ++ be4 st.h

/-! ## URL-safe base64 (`base64.urlsafe_b64encode`) -/

/-- The URL-safe base64 alphabet: `A–Z a–z 0–9 - _`. -/
def b64Char (n : Nat) : Char :=
  if n < 26 then Char.ofNat (65 + n)
  else if n < 52 then Char.ofNat (97 + (n - 26))
  else if n < 62 then Char.ofNat (48 + (n - 52))
  else if n = 62 then '-'
  else '_'

/-- `base64.urlsafe_b64encode`: URL-safe base64 with `=` padding. -/
def b64urlEncode : List Nat → List Char
  | [] => []
  | [a] => [b64Char (a / 4), b64Char (a % 4 * 16), '=', '=']
  | [a, b] => [b64Char (a / 4), b64Char (a % 4 * 16 + b / 16), b64Char (b % 16 * 4), '=']
  | a :: b :: c :: rest =>
    b64Char (a / 4) :: b64Char (a % 4 * 16 + b / 16) ::
    b64Char (b % 16 * 4 + c / 64) :: b64Char (c % 64) :: b64urlEncode rest

/-- The claim's comparison encoding: URL-safe base64 WITHOUT `=` padding
(stated from the specification's words, to be compared with the source's
`urlsafe_b64encode`, which pads). -/
def b64urlEncodeNoPad : List Nat → List Char
  | [] => []
  | [a] => [b64Char (a / 4), b64Char (a % 4 * 16)]
  | [a, b] => [b64Char (a / 4), b64Char (a % 4 * 16 + b / 16), b64Char (b % 16 * 4)]
  | a :: b :: c :: rest =>
    b64Char (a / 4) :: b64Char (a % 4 * 16 + b / 16) ::
    b64Char (b % 16 * 4 + c / 64) :: b64Char (c % 64) :: b64urlEncodeNoPad rest

/-- `verify_code_challenge` (src/validators/auth_validators.py): recompute
`urlsafe_b64encode(sha256(code_verifier).digest())` and compare with the
stored challenge. -/
def verify_code_challenge (code_challenge : List Char) (code_verifier : List Nat) : Bool :=
  let generated_code_challenge := b64urlEncode (sha256Bytes code_verifier)
  code_challenge == generated_code_challenge

/-! ## Data model

`Authorization` follows `src/database/models.py` plus the two fields the
services read and write on it (`hashed_access_token`, `consented_scopes`,
both optional-with-`None`-default like the other non-key fields). Python
`Optional[str]` is `Option String`; an `Account` enters the embedded flows
only through its unique `username` key, so the account store holds the
usernames. -/

/-- `TokenType` (src/models/token_models.py, with the `STATE` member used by
the validators). -/
inductive TokenType
  | access
  | refresh
  | state
deriving DecidableEq

/-- The claims of a decoded JWT token (`BaseToken`): subject, audience,
expiry and issue time (seconds), and the serialization hashed for reuse
detection. `hashable` stands for `TokenManager.get_token_hashable_string`,
the canonical string of the claim set (modelled from the spec: the token
manager's hashable-string helper is not under src/, only its callers are). -/
structure BaseTok where
  sub : String
  aud : String
  exp : Int
  iat : Int
  hashable : String
deriving DecidableEq

/-- `Authorization` (src/database/models.py and its use sites in
src/services/auth_services.py). -/
structure Authorization where
  username : String
  code_challenge : Option (List Char) := none
  auth_code : Option String := none
  hashed_refresh_token : Option String := none
  hashed_access_token : Option String := none
  consented_scopes : Option String := none
deriving DecidableEq

/-- `ScopeAttribute` (scope models as used by src/validators and
src/utils/scope_utils.py): a profile attribute a scope grants access to. -/
structure ScopeAttribute where
  attribute_name : String
deriving DecidableEq

/-- The `associated_attributes` of a `ClientScope`, split into the owning
client's profile-metadata attributes and account-level attributes, as
dereferenced by `validate_client_scopes` and `map_attributes_to_access_types`. -/
structure AssociatedAttributes where
  client_attributes : List ScopeAttribute := []
  account_attributes : List ScopeAttribute := []
deriving DecidableEq

/-- `ClientScope` with the fields read by the validators
(src/validators/scope_validators.py). -/
structure ClientScope where
  name : String
  shareable : Bool := false
  developer_only : Bool := false
  associated_attributes : AssociatedAttributes := {}
deriving DecidableEq

/-- `MetadataType` (src/models/client_models.py). -/
inductive MetadataType
  | string
  | integer
  | float
  | boolean
  | date
  | time
  | datetime
deriving DecidableEq

/-- `MetadataAttribute` (src/models/client_models.py): one entry of a
client's typed profile-metadata schema. -/
structure MetadataAttribute where
  name : String
  type : MetadataType
deriving DecidableEq

/-- A Python value stored in `profile_defaults` / profile `metadata`
(`dict[str, any]`). Only its identity matters to the embedded flows. -/
inductive PyVal
  | vStr (s : String)
  | vInt (n : Int)
  | vBool (b : Bool)
  | vNone
deriving DecidableEq

/-- `Client` with the fields the embedded flows read
(src/validators/client_validators.py, src/validators/scope_validators.py,
src/services). -/
structure Client where
  client_id : String
  client_secret_hash : String := ""
  scopes : List ClientScope := []
  profile_metadata_attributes : List MetadataAttribute := []
  profile_defaults : List (String × PyVal) := []
deriving DecidableEq

/-- The durable stores (account, authorization and client collections),
each keyed by its unique key as in src/database. -/
structure DB where
  accounts : List String := []
  authorizations : List Authorization := []
  clients : List Client := []
deriving DecidableEq

/-- `AuthorizationInterface.get_authorization`: `find_one` by username. -/
def get_authorization (db : DB) (username : String) : Option Authorization :=
  db.authorizations.find? (fun a => a.username == username)

/-- Replace the first record with the given username (Mongo `update_one`). -/
def replaceAuthorization : List Authorization → Authorization → List Authorization
  | [], _ => []
  | x :: xs, a => if x.username == a.username then a :: xs else x :: replaceAuthorization xs a

/-- `AuthorizationInterface.update_authorization`: `update_one` by username;
`0` when a record matched (and was overwritten), `-1` otherwise. -/
def update_authorization (db : DB) (a : Authorization) : Int × DB :=
  if db.authorizations.any (fun x => x.username == a.username) then
    (0, { db with authorizations := replaceAuthorization db.authorizations a })
  else (-1, db)

/-- `AccountsInterface.get_account`: `find_one` by username. -/
def get_account (db : DB) (username : String) : Option String :=
  db.accounts.find? (fun u => u == username)

/-- `ClientsInterface.get_client`: `find_one` by client_id. -/
def get_client (db : DB) (client_id : String) : Option Client :=
  db.clients.find? (fun c => c.client_id == client_id)

/-! ## Token manager (src/utils/token_manager.py)

Signature checking (`jwt.decode` against the public key) is the external
`decode` parameter: `none` models a token rejected for a structural or
cryptographic reason, `some` a token whose claims decoded. Bcrypt
(src/utils/hash_utils.py) is the parameter pair `verifyHash`/`hashString`;
Fernet is the parameter pair `encOpaque`/`decOpaque`. -/

/-- `TokenManager.verify_token_not_expired`:
`current_time < token.exp and current_time > token.iat`. -/
def verify_token_not_expired (now : Int) (token : BaseTok) : Bool :=
  decide (now < token.exp) && decide (now > token.iat)

/-- `TokenManager.verify_and_decode_jwt_token`: decode (signature check),
then the expiry check; `none` on either failure. -/
def verify_and_decode_jwt_token (decode : String → Option BaseTok) (now : Int)
    (token : String) : Option BaseTok :=
  match decode token with
  | none => none
  | some decoded_token =>
    if verify_token_not_expired now decoded_token then some decoded_token else none

/-! ## src/validators (authorization, hashes, client credentials) -/

/-- `verify_authorization_code` (src/validators/auth_validators.py): the
stored `auth_code` must equal the presented plaintext code; a missing record
or a cleared (`None`) stored code never matches. -/
def verify_authorization_code (db : DB) (auth_code : String) (username : String) : Bool :=
  match get_authorization db username with
  | none => false
  | some authorization =>
    match authorization.auth_code with
    | none => false
    | some stored => stored == auth_code

/-- `verify_auth_token_hash` (src/validators/auth_validators.py): look up the
Authorization record by the token's subject and bcrypt-check the token's
hashable string against the stored hash for the token type; a `None` stored
hash counts as valid ("If null in database the token is valid"). -/
def verify_auth_token_hash (verifyHash : String → String → Bool) (db : DB)
    (token : BaseTok) (token_type : TokenType) : Bool :=
  let plaintext := token.hashable
  match get_authorization db token.sub with
  | none => false
  | some authorization =>
    let ciphertext : Option String :=
      match token_type with
      | .access => authorization.hashed_access_token
      | .refresh => authorization.hashed_refresh_token
      | .state => none
    match ciphertext with
    | none => true
    | some h => verifyHash plaintext h

/-- `validate_client_credentials` (src/validators/client_validators.py). -/
def validate_client_credentials (verifyHash : String → String → Bool) (db : DB)
    (client_id client_secret : String) : Bool :=
  match get_client db client_id with
  | none => false
  | some client => verifyHash client_secret client.client_secret_hash

/-! ## src/services/auth_services.py -/

/-- OAuth2.0 token response. -/
structure TokenResponse where
  access_token : String
  refresh_token : String
  expires_in : Int
deriving DecidableEq

/-- The outputs of the two `generate_and_sign_jwt_token` calls inside one
`generate_and_store_tokens` call: the freshly generated token claim sets and
their signed strings (`none` models a falsy signed string). -/
structure TokenGen where
  access_token : BaseTok
  access_token_str : Option String
  refresh_token : BaseTok
  refresh_token_str : Option String

/-- `generate_and_store_tokens`: store the bcrypt hashes of both fresh tokens
on the Authorization record (`update_authorization`); the response is `None`
when a signed string is falsy or the update fails. -/
def generate_and_store_tokens (hashString : String → String) (gen : TokenGen)
    (access_expire_minutes : Int) (db : DB) (authorization : Authorization) :
    Option TokenResponse × DB :=
  match gen.access_token_str, gen.refresh_token_str with
  | some access_token_str, some refresh_token_str =>
    let authorization := { authorization with
      hashed_refresh_token := some (hashString gen.refresh_token.hashable),
      hashed_access_token := some (hashString gen.access_token.hashable) }
    let (response, db') := update_authorization db authorization
    if response == -1 then (none, db')
    else (some ⟨access_token_str, refresh_token_str, access_expire_minutes * 60⟩, db')
  | _, _ => (none, db)

/-- `invalidate_refresh_token`: overwrite the stored refresh-token hash with
the bcrypt hash of the sentinel `"INVALIDATED"`. -/
def invalidate_refresh_token (hashString : String → String) (db : DB)
    (username : String) : Bool × DB :=
  match get_authorization db username with
  | none => (false, db)
  | some authorization =>
    let invalid_hash := hashString "INVALIDATED"
    let authorization := { authorization with hashed_refresh_token := some invalid_hash }
    let (response, db') := update_authorization db authorization
    (response == 0, db')

/-- `refresh_and_update_tokens`: verify signature and expiry, check the
stored refresh-token hash (invalidating the family on mismatch), then issue
and store a fresh pair. The inner `get_authorization` cannot be `none` when
the hash check passed, since `verify_auth_token_hash` is false for a missing
record. -/
def refresh_and_update_tokens (verifyHash : String → String → Bool)
    (hashString : String → String) (decode : String → Option BaseTok) (now : Int)
    (gen : TokenGen) (access_expire_minutes : Int) (db : DB)
    (refresh_token : String) : Option TokenResponse × DB :=
  match verify_and_decode_jwt_token decode now refresh_token with
  | none => (none, db)
  | some decoded_token =>
    if ¬ verify_auth_token_hash verifyHash db decoded_token .refresh then
      let (_, db') := invalidate_refresh_token hashString db decoded_token.sub
      (none, db')
    else
      match get_account db decoded_token.sub with
      | none => (none, db)
      | some _ =>
        match get_authorization db decoded_token.sub with
        | none => (none, db)
        | some authorization =>
          generate_and_store_tokens hashString gen access_expire_minutes db authorization

/-- `decrypt_authorization_code` (src/utils/auth_utils.py): decrypt, then
take `split(":")[0]` as the username and everything after the first `':'`
position as the plaintext code
(`decrypted[len(decrypted.split(":")[0])+1:]`). -/
def decrypt_authorization_code (decOpaque : String → List Char) (auth_code : String) :
    List Char × List Char :=
  let decrypted_combined_code := decOpaque auth_code
  let head := decrypted_combined_code.takeWhile (fun ch => ch ≠ ':')
  (head, decrypted_combined_code.drop (head.length + 1))

/-- `generate_authorization_code` (src/utils/auth_utils.py): wrap
`"{username}:{auth_code}"` in the opaque authenticated encryption and return
the wrapped code together with the plaintext code. -/
def generate_authorization_code (encOpaque : List Char → String)
    (username auth_code : List Char) : String × List Char :=
  let combined_code := username ++ ':' :: auth_code
  (encOpaque combined_code, auth_code)

/-- `get_tokens_with_authorization_code`: the authorization_code grant.
Decrypt the code, compare it with the stored one, check the PKCE challenge,
clear the single-use fields, validate the client credentials, then issue and
persist the pair. -/
def get_tokens_with_authorization_code (verifyHash : String → String → Bool)
    (hashString : String → String) (decOpaque : String → List Char) (gen : TokenGen)
    (access_expire_minutes : Int) (db : DB) (auth_code : String)
    (code_verifier : List Nat) (client_id client_secret : String) :
    Option TokenResponse × DB :=
  let decrypted := decrypt_authorization_code decOpaque auth_code
  let username := String.mk decrypted.1
  let decoded_authorization_code := String.mk decrypted.2
  if ¬ verify_authorization_code db decoded_authorization_code username then (none, db)
  else
    match get_authorization db username with
    | none => (none, db)
    | some authorization =>
      match authorization.code_challenge with
      | none => (none, db)
      | some code_challenge =>
        if ¬ verify_code_challenge code_challenge code_verifier then (none, db)
        else
          let authorization := { authorization with code_challenge := none, auth_code := none }
          match get_account db username with
          | none => (none, db)
          | some _ =>
            if ¬ validate_client_credentials verifyHash db client_id client_secret then (none, db)
            else generate_and_store_tokens hashString gen access_expire_minutes db authorization

/-! ## src/validators/scope_validators.py -/

/-- `ProfileScope` (src/models/scope_models.py). -/
structure ProfileScope where
  client_id : String
  scope : String
deriving DecidableEq

/-- The keys of the dict comprehension
`{scope.client_id: [] for scope in scopes}`: client ids in first-occurrence
order, each once. -/
def orderedClientIds (scopes : List ProfileScope) : List String :=
  scopes.foldl (fun ks s => if ks.contains s.client_id then ks else ks ++ [s.client_id]) []

/-- The skip condition of `valid_request_scopes`: a matching client scope is
NOT counted when a requested flag is set and disagrees. -/
def scopeFlagMismatch (developer_only shareable_only : Option Bool) (s : ClientScope) : Bool :=
  (match developer_only with
   | none => false
   | some b => s.developer_only != b) ||
  (match shareable_only with
   | none => false
   | some b => s.shareable != b)

/-- `valid_request_scopes` (src/validators/scope_validators.py): group the
requested scopes by client, and for each client count its declared scopes
whose name is requested and whose flags pass; valid iff every group's count
equals the group's size and every client exists. Both flag arguments default
to `None` (no check), and the /authorize and /login endpoints pass neither. -/
def valid_request_scopes (db : DB) (scopes : List ProfileScope)
    (developer_only : Option Bool := none) (shareable_only : Option Bool := none) : Bool :=
  (orderedClientIds scopes).all fun client_id =>
    let scope_list := scopes.filter (fun s => s.client_id == client_id)
    let str_scope_list := scope_list.map (fun s => s.scope)
    match get_client db client_id with
    | none => false
    | some client =>
      let matching_client_scopes := client.scopes.filter fun s =>
        str_scope_list.contains s.name && ! scopeFlagMismatch developer_only shareable_only s
      matching_client_scopes.length == scope_list.length

/-- `check_client_scopes_have_unique_names`: `len(set(names)) == len(names)`. -/
def check_client_scopes_have_unique_names (scopes : List ClientScope) : Bool :=
  let scope_names := scopes.map (fun s => s.name)
  scope_names.eraseDups.length == scope_names.length

/-- `validate_client_scopes` (src/validators/scope_validators.py): scope
names unique; per scope, the `client_attributes` names are duplicate-free
and all exist in `profile_metadata_attributes`. -/
def validate_client_scopes (client : Client) : Bool :=
  check_client_scopes_have_unique_names client.scopes &&
  (let metadata_attribute_names := client.profile_metadata_attributes.map (fun m => m.name)
   client.scopes.all fun scope =>
     let scope_metadata_attribute_names :=
       scope.associated_attributes.client_attributes.map (fun a => a.attribute_name)
     scope_metadata_attribute_names.eraseDups.length == scope_metadata_attribute_names.length &&
     scope_metadata_attribute_names.all (fun a => metadata_attribute_names.contains a))

/-! ## src/validators/client_validators.py -/

/-- A Python exception escaping an embedded function. -/
inductive PyErr
  | attributeError
deriving DecidableEq

/-- The Python runtime type an attribute's declared `MetadataType` maps to.
Modelled from the spec: `MetadataType.get_pythonic_type` is not under src/
(only its caller `validate_profile_defaults` is); the spec declares the
attribute types string, integer, float, boolean, datetime (and the date/time
members of the enum in src/models/client_models.py). -/
inductive PyType
  | pyStr
  | pyInt
  | pyFloat
  | pyBool
  | pyDate
  | pyTime
  | pyDatetime
deriving DecidableEq

/-- Modelled from the spec: `MetadataType.get_pythonic_type` maps each
declared attribute type to its Python runtime type. -/
def get_pythonic_type : MetadataType → PyType
  | .string => .pyStr
  | .integer => .pyInt
  | .float => .pyFloat
  | .boolean => .pyBool
  | .date => .pyDate
  | .time => .pyTime
  | .datetime => .pyDatetime

/-- `validate_attribute_for_metadata_type` (src/validators/client_validators.py).
The source is

```
match metadata_type:
    case datetime.datetime: ...
    case _: return isinstance(value, metadata_type)
```

under `from datetime import datetime`, so trying the first pattern resolves
the dotted value pattern `datetime.datetime` — an attribute lookup of
`datetime` on the `datetime` *class* (not the module). The class has no such
attribute, so every call raises `AttributeError` before any comparison or
`isinstance` check is reached, whatever `metadata_type` and `value` are. -/
def validate_attribute_for_metadata_type (metadata_type : PyType) (value : PyVal) :
    Except PyErr Bool :=
  Except.error PyErr.attributeError

/-- Python dict insertion: overwrite in place when the key exists, else
append. -/
def pyDictInsert (d : List (String × α)) (k : String) (v : α) : List (String × α) :=
  if d.any (fun p => p.1 == k) then
    d.map (fun p => if p.1 == k then (k, v) else p)
  else d ++ [(k, v)]

/-- Python dict built from a list of key/value pairs (later keys overwrite,
first-occurrence order). -/
def pyDictOf (l : List (String × α)) : List (String × α) :=
  l.foldl (fun d p => pyDictInsert d p.1 p.2) []

/-- Python dict lookup. -/
def pyLookup (d : List (String × α)) (k : String) : Option α :=
  (d.find? (fun p => p.1 == k)).map (fun p => p.2)

/-- The `for key, value in client.profile_defaults.items()` loop of
`validate_profile_defaults`. -/
def validateDefaultsLoop (all_mapped_attributes : List (String × MetadataType)) :
    List (String × PyVal) → Except PyErr Bool
  | [] => Except.ok true
  | (key, value) :: rest =>
    match pyLookup all_mapped_attributes key with
    | none => Except.ok false
    | some mt =>
      match validate_attribute_for_metadata_type (get_pythonic_type mt) value with
      | Except.error e => Except.error e
      | Except.ok b => if b then validateDefaultsLoop all_mapped_attributes rest
                       else Except.ok false

/-- `validate_profile_defaults` (src/validators/client_validators.py): every
`profile_defaults` key must exist in the metadata schema and its value must
type-check for the declared type. -/
def validate_profile_defaults (client : Client) : Except PyErr Bool :=
  let all_mapped_attributes :=
    pyDictOf (client.profile_metadata_attributes.map (fun m => (m.name, m.type)))
  validateDefaultsLoop all_mapped_attributes client.profile_defaults

/-! ## src/utils/account_utils.py and src/services/account_services.py -/

/-- The `for key, value in profile_defaults.items()` loop of
`generate_default_metadata`: `if key in new_metadata: new_metadata[key] = value`. -/
def applyProfileDefaults (d : List (String × Option PyVal))
    (profile_defaults : List (String × PyVal)) : List (String × Option PyVal) :=
  profile_defaults.foldl
    (fun d p => if d.any (fun q => q.1 == p.1) then pyDictInsert d p.1 (some p.2) else d) d

/-- `generate_default_metadata` (src/utils/account_utils.py): one `None`
entry per declared metadata attribute, then each default whose key is a
declared attribute overwrites that entry; other default keys are ignored. -/
def generate_default_metadata (profile_metadata_attributes : List MetadataAttribute)
    (profile_defaults : List (String × PyVal)) : List (String × Option PyVal) :=
  let new_metadata :=
    pyDictOf (profile_metadata_attributes.map (fun m => (m.name, (none : Option PyVal))))
  applyProfileDefaults new_metadata profile_defaults

/-- `AccountsInterface.add_account` (`insert_one`): when the store accepts
the write it appends the record and returns 0, otherwise -1 with the store
unchanged. The `ok` flag is the store's verdict. -/
def add_account (ok : Bool) (db : DB) (username : String) : Int × DB :=
  if ok then (0, { db with accounts := db.accounts ++ [username] }) else (-1, db)

/-- `AuthorizationInterface.add_authorization` (`insert_one`), with the
store's verdict as the `ok` flag. -/
def add_authorization (ok : Bool) (db : DB) (a : Authorization) : Int × DB :=
  if ok then (0, { db with authorizations := db.authorizations ++ [a] }) else (-1, db)

/-- Remove the first occurrence of a username. -/
def removeAccount : List String → String → List String
  | [], _ => []
  | x :: xs, u => if x == u then xs else x :: removeAccount xs u

/-- `AccountsInterface.delete_account` (`delete_one`): 0 when a record was
deleted, -1 when none matched. -/
def delete_account (db : DB) (username : String) : Int × DB :=
  if db.accounts.any (fun x => x == username) then
    (0, { db with accounts := removeAccount db.accounts username })
  else (-1, db)

/-- `register_account_in_db_collections` (src/services/account_services.py):
add the account, then its Authorization record; if the latter write fails,
delete the just-created account before returning -1. -/
def register_account_in_db_collections (okAccount okAuthorization : Bool) (db : DB)
    (new_account : String) : Int × DB :=
  let (response, db₁) := add_account okAccount db new_account
  if response == -1 then (-1, db₁)
  else
    let authorization_object : Authorization := { username := new_account }
    let (response, db₂) := add_authorization okAuthorization db₁ authorization_object
    if response == -1 then
      let (_, db₃) := delete_account db₂ new_account
      (-1, db₃)
    else (0, db₂)

/-! ## Supporting lemmas -/

theorem length_b64urlEncode : ∀ l : List Nat, (b64urlEncode l).length = 4 * ((l.length + 2) / 3)
  | [] => by simp [b64urlEncode]
  | [_] => by simp [b64urlEncode]
  | [_, _] => by simp [b64urlEncode]
  | _ :: _ :: _ :: rest => by
    simp [b64urlEncode, length_b64urlEncode rest]
    omega

theorem length_b64urlEncodeNoPad :
    ∀ l : List Nat, (b64urlEncodeNoPad l).length = (4 * l.length + 2) / 3
  | [] => by simp [b64urlEncodeNoPad]
  | [_] => by simp [b64urlEncodeNoPad]
  | [_, _] => by simp [b64urlEncodeNoPad]
  | _ :: _ :: _ :: rest => by
    simp [b64urlEncodeNoPad, length_b64urlEncodeNoPad rest]
    omega

theorem length_sha256Bytes (m : List Nat) : (sha256Bytes m).length = 32 := by
  simp [sha256Bytes, be4]

theorem removeAccount_append_not_mem (l : List String) (u : String) (h : u ∉ l) :
    removeAccount (l ++ [u]) u = l := by
  induction l with
  | nil => simp [removeAccount]
  | cons x xs ih =>
    rw [List.mem_cons, not_or] at h
    have hx : (x == u) = false := beq_eq_false_iff_ne.mpr (Ne.symm h.1)
    simp [removeAccount, hx, ih h.2]

theorem takeWhile_append_cons {p : Char → Bool} :
    ∀ (u : List Char) (a : Char) (c : List Char),
      (∀ x ∈ u, p x = true) → p a = false → (u ++ a :: c).takeWhile p = u
  | [], a, c, _, hpa => by simp [List.takeWhile, hpa]
  | x :: xs, a, c, hu, hpa => by
    have hx : p x = true := hu x (List.mem_cons_self x xs)
    simp only [List.cons_append, List.takeWhile_cons, hx, if_true]
    rw [takeWhile_append_cons xs a c (fun y hy => hu y (List.mem_cons_of_mem x hy)) hpa]

theorem drop_append_cons (u : List Char) (a : Char) (c : List Char) :
    (u ++ a :: c).drop (u.length + 1) = c := by
  have h : u ++ a :: c = (u ++ [a]) ++ c := by simp
  have hl : (u ++ [a]).length = u.length + 1 := by simp
  rw [h, ← hl, List.drop_left]

theorem find?_cons_pos {α : Type} (q : α → Bool) (a : α) (l : List α) (h : q a = true) :
    List.find? q (a :: l) = some a :=
  @List.find?_cons_of_pos _ q a l h

theorem find?_cons_neg {α : Type} (q : α → Bool) (a : α) (l : List α) (h : q a = false) :
    List.find? q (a :: l) = List.find? q l :=
  @List.find?_cons_of_neg _ q a l (by simp [h])

theorem beq_symm_false {k name : String} (h : (name == k) = false) : (k == name) = false := by
  have hne : name ≠ k := by
    intro he
    rw [he] at h
    simp at h
  cases hc : (k == name) with
  | false => rfl
  | true => exact absurd (eq_of_beq hc) (Ne.symm hne)

theorem any_key_eq {α : Type} (d : List (String × α)) (name : String) :
    d.any (fun p => p.1 == name) = (d.map Prod.fst).any (fun x => x == name) := by
  induction d with
  | nil => rfl
  | cons p ps ih => simp only [List.any_cons, List.map_cons, ih]

theorem find?_map_overwrite {α : Type} (d : List (String × α)) (k : String) (v : α) :
    ((d.map (fun p => if p.1 == k then (k, v) else p)).find? (fun p => p.1 == k)) =
      if d.any (fun p => p.1 == k) then some (k, v) else none := by
  induction d with
  | nil => rfl
  | cons p ps ih =>
    cases h : (p.1 == k) with
    | true =>
      simp only [List.map_cons, h, if_true, List.any_cons, Bool.true_or]
      rw [find?_cons_pos (fun p => p.1 == k) (k, v) _ (by simp)]
    | false =>
      simp only [List.map_cons, h, Bool.false_eq_true, if_false, List.any_cons, Bool.false_or]
      rw [find?_cons_neg (fun p => p.1 == k) p _ h, ih]

theorem find?_map_overwrite_ne {α : Type} (d : List (String × α)) (k : String) (v : α)
    (name : String) (h : (name == k) = false) :
    ((d.map (fun p => if p.1 == k then (k, v) else p)).find? (fun p => p.1 == name)) =
      d.find? (fun p => p.1 == name) := by
  have hkn : (k == name) = false := beq_symm_false h
  induction d with
  | nil => rfl
  | cons p ps ih =>
    cases hpk : (p.1 == k) with
    | true =>
      have hp1 : p.1 = k := eq_of_beq hpk
      simp only [List.map_cons, hpk, if_true]
      rw [find?_cons_neg (fun p => p.1 == name) (k, v) _ hkn,
          find?_cons_neg (fun p => p.1 == name) p _
            (by show (p.1 == name) = false; rw [hp1]; exact hkn), ih]
    | false =>
      simp only [List.map_cons, hpk, Bool.false_eq_true, if_false]
      cases hpn : (p.1 == name) with
      | true =>
        rw [find?_cons_pos (fun p => p.1 == name) p _ hpn,
            find?_cons_pos (fun p => p.1 == name) p _ hpn]
      | false =>
        rw [find?_cons_neg (fun p => p.1 == name) p _ hpn,
            find?_cons_neg (fun p => p.1 == name) p _ hpn, ih]

theorem find?_append_left_none {α : Type} (l₁ l₂ : List α) (p : α → Bool)
    (h : ∀ a ∈ l₁, p a = false) : (l₁ ++ l₂).find? p = l₂.find? p := by
  induction l₁ with
  | nil => rfl
  | cons x xs ih =>
    rw [List.cons_append, find?_cons_neg p x _ (h x (List.mem_cons_self x xs))]
    exact ih (fun a ha => h a (List.mem_cons_of_mem x ha))

theorem pyDictInsert_keys {α : Type} (d : List (String × α)) (k : String) (v : α) :
    (pyDictInsert d k v).map Prod.fst =
      if d.any (fun p => p.1 == k) then d.map Prod.fst else d.map Prod.fst ++ [k] := by
  unfold pyDictInsert
  split
  · rw [List.map_map]
    apply List.map_congr_left
    intro p _
    simp only [Function.comp_apply]
    cases hc : (p.1 == k) with
    | true => simp [hc, (eq_of_beq hc).symm]
    | false => simp [hc]
  · simp

theorem pyLookup_pyDictInsert_self {α : Type} (d : List (String × α)) (k : String) (v : α) :
    pyLookup (pyDictInsert d k v) k = some v := by
  unfold pyDictInsert pyLookup
  split
  · next h => rw [find?_map_overwrite, if_pos h]; rfl
  · next h =>
    have hnone : ∀ a ∈ d, (fun p => p.1 == k) a = false := by
      intro a ha
      cases hpa : (a.1 == k) with
      | true => exact absurd (List.any_eq_true.mpr ⟨a, ha, hpa⟩) h
      | false => exact hpa
    have hk : (fun p => p.1 == k) ((k, v) : String × α) = true := by simp
    rw [find?_append_left_none _ _ _ hnone]
    rw [find?_cons_pos (fun p => p.1 == k) (k, v) [] hk]
    rfl

theorem find?_append_singleton_neg {α : Type} (d : List α) (x : α) (p : α → Bool)
    (h : p x = false) : (d ++ [x]).find? p = d.find? p := by
  induction d with
  | nil => rw [List.nil_append, find?_cons_neg p x _ h]
  | cons a as ih =>
    cases hpa : p a with
    | true =>
      rw [List.cons_append, find?_cons_pos p a _ hpa, find?_cons_pos p a _ hpa]
    | false =>
      rw [List.cons_append, find?_cons_neg p a _ hpa, find?_cons_neg p a _ hpa]
      exact ih

theorem pyLookup_pyDictInsert_ne {α : Type} (d : List (String × α)) (k : String) (v : α)
    (name : String) (h : (name == k) = false) :
    pyLookup (pyDictInsert d k v) name = pyLookup d name := by
  have hkn : (k == name) = false := beq_symm_false h
  unfold pyDictInsert pyLookup
  split
  · rw [find?_map_overwrite_ne _ _ _ _ h]
  · rw [find?_append_singleton_neg d (k, v) (fun p => p.1 == name) hkn]

theorem pyLookup_eq_none_of_any_false {α : Type} (d : List (String × α)) (name : String)
    (h : d.any (fun p => p.1 == name) = false) : pyLookup d name = none := by
  unfold pyLookup
  rw [List.find?_eq_none.mpr]
  · rfl
  · intro a ha hpa
    rw [List.any_eq_false] at h
    exact h a ha hpa

theorem pyLookup_of_const_values {α : Type} (d : List (String × α)) (name : String) (v : α)
    (hv : ∀ p ∈ d, p.2 = v) (hany : d.any (fun p => p.1 == name) = true) :
    pyLookup d name = some v := by
  unfold pyLookup
  cases hf : d.find? (fun p => p.1 == name) with
  | none =>
    rw [List.find?_eq_none] at hf
    rw [List.any_eq_true] at hany
    obtain ⟨x, hx, hpx⟩ := hany
    exact absurd hpx (hf x hx)
  | some p =>
    simp only [Option.map_some']
    rw [hv p (List.mem_of_find?_eq_some hf)]

theorem pyDictInsert_any {α : Type} (d : List (String × α)) (k : String) (v : α)
    (name : String) :
    (pyDictInsert d k v).any (fun p => p.1 == name) =
      (d.any (fun p => p.1 == name) || (k == name)) := by
  rw [any_key_eq, pyDictInsert_keys]
  cases hguard : d.any (fun p => p.1 == k) with
  | true =>
    rw [if_pos rfl, ← any_key_eq]
    cases hk : (k == name) with
    | false => simp
    | true =>
      have hd : d.any (fun p => p.1 == name) = true := by
        rw [List.any_eq_true] at hguard ⊢
        obtain ⟨x, hx, hxk⟩ := hguard
        exact ⟨x, hx, by rw [show x.1 = k from eq_of_beq hxk]; exact hk⟩
      simp [hd]
  | false =>
    rw [if_neg (by simp), List.any_append, ← any_key_eq]
    simp

theorem pyDictInsert_nodup {α : Type} (d : List (String × α)) (k : String) (v : α)
    (h : (d.map Prod.fst).Nodup) : ((pyDictInsert d k v).map Prod.fst).Nodup := by
  rw [pyDictInsert_keys]
  cases hguard : d.any (fun p => p.1 == k) with
  | true => rw [if_pos rfl]; exact h
  | false =>
    rw [if_neg (by simp)]
    rw [List.nodup_append]
    refine ⟨h, List.nodup_singleton k, ?_⟩
    intro a ha hk
    rw [List.mem_singleton] at hk
    rw [List.mem_map] at ha
    obtain ⟨p, hp, hpa⟩ := ha
    rw [List.any_eq_false] at hguard
    exact hguard p hp (by rw [hpa, hk]; simp)

theorem pyDictInsert_const_values {α : Type} (d : List (String × α)) (k : String) (v : α)
    (h : ∀ p ∈ d, p.2 = v) : ∀ p ∈ pyDictInsert d k v, p.2 = v := by
  unfold pyDictInsert
  split
  · intro p hp
    rw [List.mem_map] at hp
    obtain ⟨q, hq, hqe⟩ := hp
    split at hqe
    · rw [← hqe]
    · rw [← hqe]; exact h q hq
  · intro p hp
    rw [List.mem_append] at hp
    rcases hp with h1 | h2
    · exact h p h1
    · rw [List.mem_singleton] at h2
      rw [h2]

theorem pyDictOf_foldl_any {α : Type} (l : List (String × α)) (name : String) :
    ∀ d : List (String × α),
      (l.foldl (fun d p => pyDictInsert d p.1 p.2) d).any (fun p => p.1 == name) =
        (d.any (fun p => p.1 == name) || l.any (fun p => p.1 == name)) := by
  induction l with
  | nil => intro d; simp
  | cons p rest ih =>
    intro d
    rw [List.foldl_cons, ih, pyDictInsert_any]
    simp [Bool.or_assoc]

theorem pyDictOf_any {α : Type} (l : List (String × α)) (name : String) :
    (pyDictOf l).any (fun p => p.1 == name) = l.any (fun p => p.1 == name) := by
  have h := pyDictOf_foldl_any l name []
  rw [show pyDictOf l = l.foldl (fun d p => pyDictInsert d p.1 p.2) [] from rfl]
  rw [h]
  rfl

theorem pyDictOf_nodup {α : Type} (l : List (String × α)) :
    ((pyDictOf l).map Prod.fst).Nodup := by
  have aux : ∀ (l : List (String × α)) (d : List (String × α)), (d.map Prod.fst).Nodup →
      ((l.foldl (fun d p => pyDictInsert d p.1 p.2) d).map Prod.fst).Nodup := by
    intro l
    induction l with
    | nil => intro d h; exact h
    | cons p rest ih =>
      intro d h
      rw [List.foldl_cons]
      exact ih _ (pyDictInsert_nodup _ _ _ h)
  exact aux l [] (by simp)

theorem pyDictOf_const_values {α : Type} (l : List (String × α)) (v : α)
    (hl : ∀ p ∈ l, p.2 = v) : ∀ p ∈ pyDictOf l, p.2 = v := by
  have aux : ∀ (l : List (String × α)) (d : List (String × α)), (∀ p ∈ l, p.2 = v) →
      (∀ p ∈ d, p.2 = v) →
      ∀ p ∈ l.foldl (fun d p => pyDictInsert d p.1 p.2) d, p.2 = v := by
    intro l
    induction l with
    | nil => intro d _ hd; exact hd
    | cons q rest ih =>
      intro d hqs hd
      rw [List.foldl_cons]
      refine ih _ (fun p hp => hqs p (List.mem_cons_of_mem q hp)) ?_
      have hq2 : q.2 = v := hqs q (List.mem_cons_self q rest)
      have hins := pyDictInsert_const_values d q.1 q.2
        (fun p hp => (hd p hp).trans hq2.symm)
      intro p hp
      exact (hins p hp).trans hq2
  exact aux l [] hl (by intro p hp; exact absurd hp (List.not_mem_nil p))

theorem applyProfileDefaults_cons (d : List (String × Option PyVal)) (p : String × PyVal)
    (rest : List (String × PyVal)) :
    applyProfileDefaults d (p :: rest) =
      applyProfileDefaults
        (if d.any (fun q => q.1 == p.1) then pyDictInsert d p.1 (some p.2) else d) rest :=
  rfl

theorem applyProfileDefaults_keys :
    ∀ (defaults : List (String × PyVal)) (d : List (String × Option PyVal)),
      (applyProfileDefaults d defaults).map Prod.fst = d.map Prod.fst
  | [], _ => rfl
  | p :: rest, d => by
    rw [applyProfileDefaults_cons, applyProfileDefaults_keys rest]
    cases hguard : d.any (fun q => q.1 == p.1) with
    | true => rw [if_pos rfl, pyDictInsert_keys, if_pos hguard]
    | false => rw [if_neg (by simp)]

theorem applyProfileDefaults_any (defaults : List (String × PyVal))
    (d : List (String × Option PyVal)) (name : String) :
    (applyProfileDefaults d defaults).any (fun q => q.1 == name) =
      d.any (fun q => q.1 == name) := by
  rw [any_key_eq, applyProfileDefaults_keys, ← any_key_eq]

theorem applyProfileDefaults_lookup :
    ∀ (defaults : List (String × PyVal)) (d : List (String × Option PyVal)) (name : String),
      (defaults.map Prod.fst).Nodup →
      pyLookup (applyProfileDefaults d defaults) name =
        if d.any (fun q => q.1 == name) then
          match defaults.find? (fun p => p.1 == name) with
          | some p => some (some p.2)
          | none => pyLookup d name
        else pyLookup d name
  | [], d, name, _ => by
    cases h : d.any (fun q => q.1 == name) with
    | true => rw [if_pos rfl]; rfl
    | false => rw [if_neg (by simp)]; rfl
  | p :: rest, d, name, hnd => by
    have hnd' : (rest.map Prod.fst).Nodup := by
      rw [List.map_cons, List.nodup_cons] at hnd
      exact hnd.2
    have hnotin : p.1 ∉ rest.map Prod.fst := by
      rw [List.map_cons, List.nodup_cons] at hnd
      exact hnd.1
    rw [applyProfileDefaults_cons]
    cases hname : (p.1 == name) with
    | true =>
      have hpn : p.1 = name := eq_of_beq hname
      subst hpn
      have hrest : rest.find? (fun q => q.1 == p.1) = none := by
        rw [List.find?_eq_none]
        intro a ha hpa
        exact hnotin ((eq_of_beq hpa) ▸ List.mem_map_of_mem Prod.fst ha)
      rw [find?_cons_pos (fun q => q.1 == p.1) p rest (by simp)]
      cases hmem : d.any (fun q => q.1 == p.1) with
      | true =>
        rw [if_pos rfl, if_pos rfl,
            applyProfileDefaults_lookup rest _ p.1 hnd', hrest]
        have hany' : (pyDictInsert d p.1 (some p.2)).any (fun q => q.1 == p.1) = true := by
          rw [any_key_eq, pyDictInsert_keys, if_pos hmem, ← any_key_eq]
          exact hmem
        rw [if_pos hany', pyLookup_pyDictInsert_self]
      | false =>
        rw [if_neg (by simp), if_neg (by simp),
            applyProfileDefaults_lookup rest _ p.1 hnd', hrest, if_neg (by simp [hmem])]
    | false =>
      have hfind : (p :: rest).find? (fun q => q.1 == name) =
          rest.find? (fun q => q.1 == name) :=
        find?_cons_neg (fun q => q.1 == name) p rest hname
      rw [hfind]
      cases hguard : d.any (fun q => q.1 == p.1) with
      | true =>
        rw [if_pos rfl, applyProfileDefaults_lookup rest _ name hnd']
        have hany2 : (pyDictInsert d p.1 (some p.2)).any (fun q => q.1 == name) =
            d.any (fun q => q.1 == name) := by
          rw [any_key_eq, pyDictInsert_keys, if_pos hguard, ← any_key_eq]
        have hlk : pyLookup (pyDictInsert d p.1 (some p.2)) name = pyLookup d name :=
          pyLookup_pyDictInsert_ne d p.1 (some p.2) name (beq_symm_false hname)
        rw [hany2, hlk]
      | false =>
        rw [if_neg (by simp), applyProfileDefaults_lookup rest _ name hnd']

theorem find?_replaceAuthorization (l : List Authorization) (a' : Authorization)
    (h : ∃ x ∈ l, (x.username == a'.username) = true) :
    (replaceAuthorization l a').find? (fun x => x.username == a'.username) = some a' := by
  induction l with
  | nil =>
    obtain ⟨x, hx, _⟩ := h
    exact absurd hx (List.not_mem_nil x)
  | cons x xs ih =>
    cases hx : (x.username == a'.username) with
    | true =>
      simp only [replaceAuthorization, hx, if_true]
      exact find?_cons_pos (fun y => y.username == a'.username) a' xs (by simp)
    | false =>
      simp only [replaceAuthorization, hx, Bool.false_eq_true, if_false]
      rw [find?_cons_neg (fun y => y.username == a'.username) x _ hx]
      apply ih
      obtain ⟨y, hy, hyy⟩ := h
      rcases List.mem_cons.mp hy with h1 | h2
      · rw [h1] at hyy
        rw [hyy] at hx
        exact absurd hx (by simp)
      · exact ⟨y, h2, hyy⟩

theorem get_authorization_some (db : DB) (u : String) (a : Authorization)
    (h : get_authorization db u = some a) :
    a.username = u ∧ ∃ x ∈ db.authorizations, (x.username == u) = true := by
  have h' : db.authorizations.find? (fun x => x.username == u) = some a := h
  have hp : (a.username == u) = true :=
    @List.find?_some _ (fun x => x.username == u) a db.authorizations h'
  have hm : a ∈ db.authorizations :=
    @List.mem_of_find?_eq_some _ (fun x => x.username == u) a db.authorizations h'
  exact ⟨eq_of_beq hp, ⟨a, hm, hp⟩⟩

theorem get_authorization_replace (db : DB) (a' : Authorization) (u : String)
    (hu : a'.username = u) (h : ∃ x ∈ db.authorizations, (x.username == u) = true) :
    get_authorization { db with authorizations := replaceAuthorization db.authorizations a' } u
      = some a' := by
  unfold get_authorization
  subst hu
  exact find?_replaceAuthorization _ _ h

theorem update_authorization_of_exists (db : DB) (a' : Authorization)
    (h : ∃ x ∈ db.authorizations, (x.username == a'.username) = true) :
    update_authorization db a' =
      (0, { db with authorizations := replaceAuthorization db.authorizations a' }) := by
  unfold update_authorization
  rw [if_pos (List.any_eq_true.mpr h)]

theorem generate_and_store_tokens_spec (hS : String → String) (gen : TokenGen) (em : Int)
    (db : DB) (authorization : Authorization)
    (hex : ∃ x ∈ db.authorizations, (x.username == authorization.username) = true)
    (hsucc : (generate_and_store_tokens hS gen em db authorization).1.isSome = true) :
    (generate_and_store_tokens hS gen em db authorization).2 =
      { db with authorizations :=
          (replaceAuthorization db.authorizations
            { authorization with
              hashed_refresh_token := some (hS gen.refresh_token.hashable),
              hashed_access_token := some (hS gen.access_token.hashable) }) } := by
  unfold generate_and_store_tokens at hsucc ⊢
  cases hats : gen.access_token_str with
  | none => rw [hats] at hsucc; simp at hsucc
  | some ats =>
    cases hrts : gen.refresh_token_str with
    | none => rw [hats, hrts] at hsucc; simp at hsucc
    | some rts =>
      dsimp only
      rw [update_authorization_of_exists db
            { authorization with
              hashed_refresh_token := some (hS gen.refresh_token.hashable),
              hashed_access_token := some (hS gen.access_token.hashable) } hex]
      simp

theorem generate_and_store_tokens_fails_of_no_match (hS : String → String) (gen : TokenGen)
    (em : Int) (db : DB) (authorization : Authorization)
    (hex : db.authorizations.any (fun x => x.username == authorization.username) = false) :
    (generate_and_store_tokens hS gen em db authorization).1 = none := by
  unfold generate_and_store_tokens
  cases hats : gen.access_token_str with
  | none => rfl
  | some ats =>
    cases hrts : gen.refresh_token_str with
    | none => rfl
    | some rts =>
      dsimp only
      unfold update_authorization
      simp [hex]

theorem verify_auth_token_hash_refresh (vH : String → String → Bool) (db : DB)
    (tok : BaseTok) (a : Authorization) (ha : get_authorization db tok.sub = some a) :
    verify_auth_token_hash vH db tok .refresh =
      (match a.hashed_refresh_token with
       | none => true
       | some h => vH tok.hashable h) := by
  unfold verify_auth_token_hash
  rw [ha]

theorem invalidate_refresh_token_state (hS : String → String) (db : DB) (u : String)
    (a : Authorization) (ha : get_authorization db u = some a) :
    (invalidate_refresh_token hS db u).2 =
      { db with authorizations :=
          (replaceAuthorization db.authorizations
            { a with hashed_refresh_token := some (hS "INVALIDATED") }) } := by
  obtain ⟨hu, hex⟩ := get_authorization_some db u a ha
  unfold invalidate_refresh_token
  rw [ha]
  dsimp only
  rw [update_authorization_of_exists db _ (by dsimp only; rw [hu]; exact hex)]

theorem refresh_mismatch_state (vH : String → String → Bool) (hS : String → String)
    (decode : String → Option BaseTok) (now : Int) (gen : TokenGen) (em : Int)
    (db : DB) (rt : String) (tok : BaseTok)
    (hdec : verify_and_decode_jwt_token decode now rt = some tok)
    (hbad : verify_auth_token_hash vH db tok .refresh = false) :
    refresh_and_update_tokens vH hS decode now gen em db rt =
      (none, (invalidate_refresh_token hS db tok.sub).2) := by
  unfold refresh_and_update_tokens
  rw [hdec]
  dsimp only
  rw [if_pos (by simp [hbad])]

/-! ## The claims -/

/-- **C1, the claim as stated, refuted.** A concrete store whose
Authorization record has `hashed_refresh_token = null` (as every record
fresh from registration does): a cryptographically valid refresh token is
presented and the grant issues a new token pair, even though no stored
hash matches it — `verify_auth_token_hash` treats a null stored hash as
valid. -/
theorem C1_counterexample :
    ((refresh_and_update_tokens (fun p h => p == h) (fun s => s)
        (fun s => if s == "RT0" then some ⟨"alice", "app1", 200, 0, "rt0"⟩ else none)
        100
        ⟨⟨"alice", "app1", 300, 100, "at1"⟩, some "AT1",
         ⟨"alice", "app1", 400, 100, "rt1"⟩, some "RT1"⟩
        30
        { accounts := ["alice"], authorizations := [{ username := "alice" }] }
        "RT0").1 = some ⟨"AT1", "RT1", 1800⟩) ∧
    ((get_authorization
        { accounts := ["alice"], authorizations := [{ username := "alice" }] }
        "alice").map (fun a => a.hashed_refresh_token) = some none) := by
  decide

/-- **C1 (amended).** The refresh grant issues a new token pair only if the
token's signature and expiry verify AND the stored `hashed_refresh_token`
either is null (treated as valid by `verify_auth_token_hash`) or passes the
bcrypt check against the token; with a non-null stored hash that does not
match, the grant always rejects. -/
theorem C1_theorem (vH : String → String → Bool) (hS : String → String)
    (decode : String → Option BaseTok) (now : Int) (gen : TokenGen) (em : Int)
    (db : DB) (rt : String)
    (hsucc : (refresh_and_update_tokens vH hS decode now gen em db rt).1.isSome = true) :
    ∃ tok, verify_and_decode_jwt_token decode now rt = some tok ∧
      ∃ a, get_authorization db tok.sub = some a ∧
        (a.hashed_refresh_token = none ∨
         ∃ h, a.hashed_refresh_token = some h ∧ vH tok.hashable h = true) := by
  unfold refresh_and_update_tokens at hsucc
  cases hdec : verify_and_decode_jwt_token decode now rt with
  | none => rw [hdec] at hsucc; simp at hsucc
  | some decoded =>
    rw [hdec] at hsucc
    dsimp only at hsucc
    by_cases hv : verify_auth_token_hash vH db decoded .refresh = true
    · rw [if_neg (by simp [hv])] at hsucc
      cases hacct : get_account db decoded.sub with
      | none => rw [hacct] at hsucc; simp at hsucc
      | some acct =>
        rw [hacct] at hsucc
        dsimp only at hsucc
        cases hauth : get_authorization db decoded.sub with
        | none => rw [hauth] at hsucc; simp at hsucc
        | some a =>
          refine ⟨decoded, rfl, a, hauth, ?_⟩
          rw [verify_auth_token_hash_refresh vH db decoded a hauth] at hv
          cases hrt : a.hashed_refresh_token with
          | none => exact Or.inl rfl
          | some h =>
            rw [hrt] at hv
            exact Or.inr ⟨h, rfl, hv⟩
    · rw [if_pos (by simp [hv])] at hsucc
      simp at hsucc

/-- **C1 witness**: the amended theorem applied at the concrete
null-stored-hash store; the disjunct that holds is the null one. -/
theorem C1_witness :
    ∃ tok, verify_and_decode_jwt_token
        (fun s => if s == "RT0" then some ⟨"alice", "app1", 200, 0, "rt0"⟩ else none)
        100 "RT0" = some tok ∧
      ∃ a, get_authorization
          { accounts := ["alice"], authorizations := [{ username := "alice" }] }
          tok.sub = some a ∧
        (a.hashed_refresh_token = none ∨
         ∃ h, a.hashed_refresh_token = some h ∧
           (fun p h => p == h : String → String → Bool) tok.hashable h = true) :=
  C1_theorem (fun p h => p == h) (fun s => s)
    (fun s => if s == "RT0" then some ⟨"alice", "app1", 200, 0, "rt0"⟩ else none)
    100
    ⟨⟨"alice", "app1", 300, 100, "at1"⟩, some "AT1",
     ⟨"alice", "app1", 400, 100, "rt1"⟩, some "RT1"⟩
    30
    { accounts := ["alice"], authorizations := [{ username := "alice" }] }
    "RT0" (by decide)

/-- **C2, the claim as stated, refuted.** A token issued exactly at the
current second (`iat = now`): the claim's window `iat ≤ now < exp` holds,
but `verify_token_not_expired` rejects it, because the source checks
`current_time > token.iat` strictly. -/
theorem C2_counterexample :
    ¬ (verify_token_not_expired 100 ⟨"user", "app1", 200, 100, "claims"⟩ = true ↔
       ((100 : Int) ≤ 100 ∧ (100 : Int) < 200)) := by
  decide

/-- **C2 (amended).** A token verifies as non-expired iff
`iat < now < exp`: both boundaries are strict, so a token whose `iat`
equals the current time does not verify, and moving `iat` or `exp` by one
second flips the result exactly at those strict boundaries. -/
theorem C2_theorem (now : Int) (token : BaseTok) :
    verify_token_not_expired now token = true ↔ (token.iat < now ∧ now < token.exp) := by
  simp only [verify_token_not_expired, Bool.and_eq_true, decide_eq_true_eq, gt_iff_lt]
  exact and_comm

set_option maxRecDepth 1000000

/-- **C3, the claim as stated, refuted.** For the concrete verifier
`"abc"`, presenting the UNPADDED base64url encoding of its SHA-256 digest —
exactly the challenge the claim says is accepted — is rejected by
`verify_code_challenge`. -/
theorem C3_counterexample :
    verify_code_challenge (b64urlEncodeNoPad (sha256Bytes [97, 98, 99])) [97, 98, 99] = false := by
  decide

/-- **C3 (amended).** `verify_code_challenge` accepts exactly the PADDED
URL-safe base64 encoding of the SHA-256 digest of the verifier (Python's
`urlsafe_b64encode` keeps `=` padding); the unpadded encoding differs from
it for every verifier (a 32-byte digest encodes to 44 padded characters,
43 unpadded), so the unpadded form is never accepted. -/
theorem C3_theorem :
    (∀ (code_challenge : List Char) (code_verifier : List Nat),
       verify_code_challenge code_challenge code_verifier = true ↔
         code_challenge = b64urlEncode (sha256Bytes code_verifier)) ∧
    (∀ code_verifier : List Nat,
       b64urlEncodeNoPad (sha256Bytes code_verifier) ≠ b64urlEncode (sha256Bytes code_verifier)) := by
  constructor
  · intro code_challenge code_verifier
    simp [verify_code_challenge]
  · intro code_verifier h
    have h1 := length_b64urlEncode (sha256Bytes code_verifier)
    have h2 := length_b64urlEncodeNoPad (sha256Bytes code_verifier)
    rw [length_sha256Bytes] at h1 h2
    rw [h, h1] at h2
    omega

/-- **C4 (confirmed, rotation and family revocation).** Under the bcrypt
idealization (`verifyHash p (hashString q) = (p == q)`): after a successful
rotation that stored the hash of the fresh refresh token, replaying the
previous refresh token — which still verifies cryptographically but no
longer matches the stored hash — is rejected AND overwrites the stored
hash with the hash of the sentinel `"INVALIDATED"`; consequently the newly
issued refresh token also fails on its next refresh (family revocation). -/
theorem C4_theorem (vH : String → String → Bool) (hS : String → String)
    (decode : String → Option BaseTok) (now : Int) (gen₁ gen₂ gen₃ : TokenGen)
    (em₁ em₂ em₃ : Int) (db : DB) (rt_old rt_new : String) (tokOld : BaseTok)
    (Hideal : ∀ p q, vH p (hS q) = (p == q))
    (hdec_old : decode rt_old = some tokOld)
    (hdec_new : decode rt_new = some gen₁.refresh_token)
    (hsub : gen₁.refresh_token.sub = tokOld.sub)
    (hfresh_old : verify_token_not_expired now tokOld = true)
    (hfresh_new : verify_token_not_expired now gen₁.refresh_token = true)
    (hneq : tokOld.hashable ≠ gen₁.refresh_token.hashable)
    (hsent : gen₁.refresh_token.hashable ≠ "INVALIDATED")
    (hsucc : (refresh_and_update_tokens vH hS decode now gen₁ em₁ db rt_old).1.isSome
      = true) :
    (refresh_and_update_tokens vH hS decode now gen₂ em₂
        (refresh_and_update_tokens vH hS decode now gen₁ em₁ db rt_old).2 rt_old).1
      = none ∧
    (∃ a, get_authorization
        (refresh_and_update_tokens vH hS decode now gen₂ em₂
          (refresh_and_update_tokens vH hS decode now gen₁ em₁ db rt_old).2 rt_old).2
        tokOld.sub = some a ∧
      a.hashed_refresh_token = some (hS "INVALIDATED")) ∧
    (refresh_and_update_tokens vH hS decode now gen₃ em₃
        (refresh_and_update_tokens vH hS decode now gen₂ em₂
          (refresh_and_update_tokens vH hS decode now gen₁ em₁ db rt_old).2 rt_old).2
        rt_new).1 = none := by
  have hvd_old : verify_and_decode_jwt_token decode now rt_old = some tokOld := by
    unfold verify_and_decode_jwt_token
    rw [hdec_old]
    simp [hfresh_old]
  have hvd_new : verify_and_decode_jwt_token decode now rt_new
      = some gen₁.refresh_token := by
    unfold verify_and_decode_jwt_token
    rw [hdec_new]
    simp [hfresh_new]
  unfold refresh_and_update_tokens at hsucc
  rw [hvd_old] at hsucc
  dsimp only at hsucc
  by_cases hv : verify_auth_token_hash vH db tokOld .refresh = true
  case neg => rw [if_pos (by simp [hv])] at hsucc; simp at hsucc
  case pos =>
  rw [if_neg (by simp [hv])] at hsucc
  cases hacct : get_account db tokOld.sub with
  | none => rw [hacct] at hsucc; simp at hsucc
  | some acct =>
  rw [hacct] at hsucc
  dsimp only at hsucc
  cases hga : get_authorization db tokOld.sub with
  | none => rw [hga] at hsucc; simp at hsucc
  | some a =>
  rw [hga] at hsucc
  obtain ⟨hau, hex⟩ := get_authorization_some db tokOld.sub a hga
  have hex₁ : ∃ x ∈ db.authorizations, (x.username == a.username) = true := by
    rw [hau]
    exact hex
  have hstate₁ := generate_and_store_tokens_spec hS gen₁ em₁ db a hex₁ hsucc
  have hRed₁ : refresh_and_update_tokens vH hS decode now gen₁ em₁ db rt_old
      = generate_and_store_tokens hS gen₁ em₁ db a := by
    unfold refresh_and_update_tokens
    rw [hvd_old]
    dsimp only
    rw [if_neg (by simp [hv]), hacct]
    dsimp only
    rw [hga]
  have hga₁ : get_authorization (generate_and_store_tokens hS gen₁ em₁ db a).2 tokOld.sub
      = some { a with
               hashed_refresh_token := some (hS gen₁.refresh_token.hashable),
               hashed_access_token := some (hS gen₁.access_token.hashable) } := by
    rw [hstate₁]
    exact get_authorization_replace db _ _ (by dsimp only; exact hau) hex
  have hbad₂ : verify_auth_token_hash vH (generate_and_store_tokens hS gen₁ em₁ db a).2
      tokOld .refresh = false := by
    rw [verify_auth_token_hash_refresh vH _ tokOld _ hga₁]
    dsimp only
    rw [Hideal]
    exact beq_eq_false_iff_ne.mpr hneq
  have hR₂ := refresh_mismatch_state vH hS decode now gen₂ em₂
    (generate_and_store_tokens hS gen₁ em₁ db a).2 rt_old tokOld hvd_old hbad₂
  have hex₂ : ∃ x ∈ (generate_and_store_tokens hS gen₁ em₁ db a).2.authorizations,
      (x.username == tokOld.sub) = true :=
    (get_authorization_some _ _ _ hga₁).2
  have hga₂ : get_authorization
      (invalidate_refresh_token hS (generate_and_store_tokens hS gen₁ em₁ db a).2
        tokOld.sub).2 tokOld.sub
      = some { a with
               hashed_refresh_token := some (hS "INVALIDATED"),
               hashed_access_token := some (hS gen₁.access_token.hashable) } := by
    rw [invalidate_refresh_token_state hS _ tokOld.sub _ hga₁]
    exact get_authorization_replace _ _ _ (by dsimp only; exact hau) hex₂
  have hbad₃ : verify_auth_token_hash vH
      (invalidate_refresh_token hS (generate_and_store_tokens hS gen₁ em₁ db a).2
        tokOld.sub).2 gen₁.refresh_token .refresh = false := by
    rw [verify_auth_token_hash_refresh vH _ gen₁.refresh_token _
      (by rw [hsub]; exact hga₂)]
    dsimp only
    rw [Hideal]
    exact beq_eq_false_iff_ne.mpr hsent
  refine ⟨?_, ?_, ?_⟩
  · rw [hRed₁, hR₂]
  · rw [hRed₁, hR₂]
    exact ⟨_, hga₂, rfl⟩
  · rw [hRed₁, hR₂]
    rw [refresh_mismatch_state vH hS decode now gen₃ em₃ _ rt_new
      gen₁.refresh_token hvd_new hbad₃]

/-- **C4 witness**: a concrete rotation–replay–revocation run with the
identity bcrypt idealization: `"RT0"` rotates successfully; replaying
`"RT0"` is rejected and stores the sentinel hash; the fresh `"RT1"` is
then rejected too. -/
theorem C4_witness :
    (refresh_and_update_tokens (fun p h => p == h) (fun s => s)
        (fun s => if s == "RT0" then some ⟨"alice", "app1", 200, 0, "rt0"⟩
                  else if s == "RT1" then some ⟨"alice", "app1", 400, 0, "rt1"⟩
                  else none)
        100
        ⟨⟨"alice", "app1", 300, 0, "at1"⟩, some "AT1",
         ⟨"alice", "app1", 400, 0, "rt1"⟩, some "RT1"⟩ 30
        (refresh_and_update_tokens (fun p h => p == h) (fun s => s)
          (fun s => if s == "RT0" then some ⟨"alice", "app1", 200, 0, "rt0"⟩
                    else if s == "RT1" then some ⟨"alice", "app1", 400, 0, "rt1"⟩
                    else none)
          100
          ⟨⟨"alice", "app1", 300, 0, "at1"⟩, some "AT1",
           ⟨"alice", "app1", 400, 0, "rt1"⟩, some "RT1"⟩ 30
          { accounts := ["alice"],
            authorizations := [{ username := "alice",
                                 hashed_refresh_token := some "rt0" }] }
          "RT0").2 "RT0").1 = none ∧
    (∃ a, get_authorization
        (refresh_and_update_tokens (fun p h => p == h) (fun s => s)
          (fun s => if s == "RT0" then some ⟨"alice", "app1", 200, 0, "rt0"⟩
                    else if s == "RT1" then some ⟨"alice", "app1", 400, 0, "rt1"⟩
                    else none)
          100
          ⟨⟨"alice", "app1", 300, 0, "at1"⟩, some "AT1",
           ⟨"alice", "app1", 400, 0, "rt1"⟩, some "RT1"⟩ 30
          (refresh_and_update_tokens (fun p h => p == h) (fun s => s)
            (fun s => if s == "RT0" then some ⟨"alice", "app1", 200, 0, "rt0"⟩
                      else if s == "RT1" then some ⟨"alice", "app1", 400, 0, "rt1"⟩
                      else none)
            100
            ⟨⟨"alice", "app1", 300, 0, "at1"⟩, some "AT1",
             ⟨"alice", "app1", 400, 0, "rt1"⟩, some "RT1"⟩ 30
            { accounts := ["alice"],
              authorizations := [{ username := "alice",
                                   hashed_refresh_token := some "rt0" }] }
            "RT0").2 "RT0").2
        (⟨"alice", "app1", 200, 0, "rt0"⟩ : BaseTok).sub = some a ∧
      a.hashed_refresh_token = some ((fun s => s : String → String) "INVALIDATED")) ∧
    (refresh_and_update_tokens (fun p h => p == h) (fun s => s)
        (fun s => if s == "RT0" then some ⟨"alice", "app1", 200, 0, "rt0"⟩
                  else if s == "RT1" then some ⟨"alice", "app1", 400, 0, "rt1"⟩
                  else none)
        100
        ⟨⟨"alice", "app1", 300, 0, "at1"⟩, some "AT1",
         ⟨"alice", "app1", 400, 0, "rt1"⟩, some "RT1"⟩ 30
        (refresh_and_update_tokens (fun p h => p == h) (fun s => s)
          (fun s => if s == "RT0" then some ⟨"alice", "app1", 200, 0, "rt0"⟩
                    else if s == "RT1" then some ⟨"alice", "app1", 400, 0, "rt1"⟩
                    else none)
          100
          ⟨⟨"alice", "app1", 300, 0, "at1"⟩, some "AT1",
           ⟨"alice", "app1", 400, 0, "rt1"⟩, some "RT1"⟩ 30
          (refresh_and_update_tokens (fun p h => p == h) (fun s => s)
            (fun s => if s == "RT0" then some ⟨"alice", "app1", 200, 0, "rt0"⟩
                      else if s == "RT1" then some ⟨"alice", "app1", 400, 0, "rt1"⟩
                      else none)
            100
            ⟨⟨"alice", "app1", 300, 0, "at1"⟩, some "AT1",
             ⟨"alice", "app1", 400, 0, "rt1"⟩, some "RT1"⟩ 30
            { accounts := ["alice"],
              authorizations := [{ username := "alice",
                                   hashed_refresh_token := some "rt0" }] }
            "RT0").2 "RT0").2 "RT1").1 = none :=
  C4_theorem (fun p h => p == h) (fun s => s)
    (fun s => if s == "RT0" then some ⟨"alice", "app1", 200, 0, "rt0"⟩
              else if s == "RT1" then some ⟨"alice", "app1", 400, 0, "rt1"⟩
              else none)
    100
    ⟨⟨"alice", "app1", 300, 0, "at1"⟩, some "AT1",
     ⟨"alice", "app1", 400, 0, "rt1"⟩, some "RT1"⟩
    ⟨⟨"alice", "app1", 300, 0, "at1"⟩, some "AT1",
     ⟨"alice", "app1", 400, 0, "rt1"⟩, some "RT1"⟩
    ⟨⟨"alice", "app1", 300, 0, "at1"⟩, some "AT1",
     ⟨"alice", "app1", 400, 0, "rt1"⟩, some "RT1"⟩
    30 30 30
    { accounts := ["alice"],
      authorizations := [{ username := "alice",
                           hashed_refresh_token := some "rt0" }] }
    "RT0" "RT1" ⟨"alice", "app1", 200, 0, "rt0"⟩
    (fun p q => rfl) (by decide) (by decide) rfl (by decide) (by decide)
    (by decide) (by decide) (by decide)

/-- **C5 (confirmed, single-use codes).** If an authorization-code exchange
succeeds, the persisted Authorization record has `auth_code` and
`code_challenge` cleared to null, and any second exchange presenting the
same code — whatever verifier, client credentials or fresh tokens it brings
— is rejected (the stored-code comparison fails against null) and leaves
the store unchanged. -/
theorem C5_theorem (vH : String → String → Bool) (hS : String → String)
    (decOpaque : String → List Char) (gen : TokenGen) (em : Int) (db : DB)
    (code : String) (verifier : List Nat) (cid secret : String)
    (hsucc : (get_tokens_with_authorization_code vH hS decOpaque gen em db code
        verifier cid secret).1.isSome = true) :
    (∃ a₂, get_authorization
        (get_tokens_with_authorization_code vH hS decOpaque gen em db code
          verifier cid secret).2
        (String.mk (decrypt_authorization_code decOpaque code).1) = some a₂ ∧
      a₂.auth_code = none ∧ a₂.code_challenge = none) ∧
    (∀ (gen₂ : TokenGen) (em₂ : Int) (verifier₂ : List Nat) (cid₂ secret₂ : String),
      get_tokens_with_authorization_code vH hS decOpaque gen₂ em₂
          (get_tokens_with_authorization_code vH hS decOpaque gen em db code
            verifier cid secret).2 code verifier₂ cid₂ secret₂ =
        (none,
          (get_tokens_with_authorization_code vH hS decOpaque gen em db code
            verifier cid secret).2)) := by
  unfold get_tokens_with_authorization_code at hsucc
  dsimp only at hsucc
  by_cases hvc : verify_authorization_code db
      (String.mk (decrypt_authorization_code decOpaque code).2)
      (String.mk (decrypt_authorization_code decOpaque code).1) = true
  case neg => rw [if_pos (by simp [hvc])] at hsucc; simp at hsucc
  case pos =>
  rw [if_neg (by simp [hvc])] at hsucc
  cases hga : get_authorization db (String.mk (decrypt_authorization_code decOpaque code).1) with
  | none => rw [hga] at hsucc; simp at hsucc
  | some a =>
  rw [hga] at hsucc
  dsimp only at hsucc
  cases hcc : a.code_challenge with
  | none => rw [hcc] at hsucc; simp at hsucc
  | some cc =>
  rw [hcc] at hsucc
  dsimp only at hsucc
  by_cases hvc2 : verify_code_challenge cc verifier = true
  case neg => rw [if_pos (by simp [hvc2])] at hsucc; simp at hsucc
  case pos =>
  rw [if_neg (by simp [hvc2])] at hsucc
  cases hacct : get_account db (String.mk (decrypt_authorization_code decOpaque code).1) with
  | none => rw [hacct] at hsucc; simp at hsucc
  | some acct =>
  rw [hacct] at hsucc
  dsimp only at hsucc
  by_cases hcred : validate_client_credentials vH db cid secret = true
  case neg => rw [if_pos (by simp [hcred])] at hsucc; simp at hsucc
  case pos =>
  rw [if_neg (by simp [hcred])] at hsucc
  obtain ⟨hauname, hex⟩ := get_authorization_some db _ a hga
  have hex' : ∃ x ∈ db.authorizations,
      (x.username == ({ a with code_challenge := none, auth_code := none } :
        Authorization).username) = true := by
    dsimp only
    rw [hauname]
    exact hex
  have hstate := generate_and_store_tokens_spec hS gen em db
    { a with code_challenge := none, auth_code := none } hex' hsucc
  have hRed : get_tokens_with_authorization_code vH hS decOpaque gen em db code
      verifier cid secret =
      generate_and_store_tokens hS gen em db
        { a with code_challenge := none, auth_code := none } := by
    unfold get_tokens_with_authorization_code
    dsimp only
    rw [if_neg (by simp [hvc]), hga]
    dsimp only
    rw [hcc]
    dsimp only
    rw [if_neg (by simp [hvc2]), hacct]
    dsimp only
    rw [if_neg (by simp [hcred])]
  have hga₂' : get_authorization
      (generate_and_store_tokens hS gen em db
        { a with code_challenge := none, auth_code := none }).2
      (String.mk (decrypt_authorization_code decOpaque code).1) =
      some { a with
             code_challenge := none,
             auth_code := none,
             hashed_refresh_token := some (hS gen.refresh_token.hashable),
             hashed_access_token := some (hS gen.access_token.hashable) } := by
    rw [hstate]
    exact get_authorization_replace db _ _ (by dsimp only; exact hauname) hex
  constructor
  · refine ⟨{ a with
              code_challenge := none,
              auth_code := none,
              hashed_refresh_token := some (hS gen.refresh_token.hashable),
              hashed_access_token := some (hS gen.access_token.hashable) }, ?_, rfl, rfl⟩
    rw [hRed]
    exact hga₂'
  · intro gen₂ em₂ verifier₂ cid₂ secret₂
    rw [hRed]
    have hvc₂false : verify_authorization_code
        (generate_and_store_tokens hS gen em db
          { a with code_challenge := none, auth_code := none }).2
        (String.mk (decrypt_authorization_code decOpaque code).2)
        (String.mk (decrypt_authorization_code decOpaque code).1) = false := by
      unfold verify_authorization_code
      rw [hga₂']
    unfold get_tokens_with_authorization_code
    dsimp only
    rw [if_pos (by simp [hvc₂false])]

/-- **C5 witness**: a concrete successful exchange (the stored challenge is
the padded base64url SHA-256 of the verifier `"v"`), instantiating the
theorem; the second-exchange clause is then evaluated below in
`C5_theorem` itself. -/
theorem C5_witness :
    (∃ a₂, get_authorization
        (get_tokens_with_authorization_code (fun p h => p == h) (fun s => s)
          String.data
          ⟨⟨"bob", "app1", 300, 100, "at5"⟩, some "AT5",
           ⟨"bob", "app1", 400, 100, "rt5"⟩, some "RT5"⟩ 30
          { accounts := ["bob"],
            authorizations := [{ username := "bob",
                                 code_challenge := some (b64urlEncode (sha256Bytes [118])),
                                 auth_code := some "CODE1" }],
            clients := [{ client_id := "app1", client_secret_hash := "sec1" }] }
          "bob:CODE1" [118] "app1" "sec1").2
        (String.mk (decrypt_authorization_code String.data "bob:CODE1").1) = some a₂ ∧
      a₂.auth_code = none ∧ a₂.code_challenge = none) ∧
    (∀ (gen₂ : TokenGen) (em₂ : Int) (verifier₂ : List Nat) (cid₂ secret₂ : String),
      get_tokens_with_authorization_code (fun p h => p == h) (fun s => s)
          String.data gen₂ em₂
          (get_tokens_with_authorization_code (fun p h => p == h) (fun s => s)
            String.data
            ⟨⟨"bob", "app1", 300, 100, "at5"⟩, some "AT5",
             ⟨"bob", "app1", 400, 100, "rt5"⟩, some "RT5"⟩ 30
            { accounts := ["bob"],
              authorizations := [{ username := "bob",
                                   code_challenge := some (b64urlEncode (sha256Bytes [118])),
                                   auth_code := some "CODE1" }],
              clients := [{ client_id := "app1", client_secret_hash := "sec1" }] }
            "bob:CODE1" [118] "app1" "sec1").2 "bob:CODE1" verifier₂ cid₂ secret₂ =
        (none,
          (get_tokens_with_authorization_code (fun p h => p == h) (fun s => s)
            String.data
            ⟨⟨"bob", "app1", 300, 100, "at5"⟩, some "AT5",
             ⟨"bob", "app1", 400, 100, "rt5"⟩, some "RT5"⟩ 30
            { accounts := ["bob"],
              authorizations := [{ username := "bob",
                                   code_challenge := some (b64urlEncode (sha256Bytes [118])),
                                   auth_code := some "CODE1" }],
              clients := [{ client_id := "app1", client_secret_hash := "sec1" }] }
            "bob:CODE1" [118] "app1" "sec1").2)) :=
  C5_theorem (fun p h => p == h) (fun s => s) String.data
    ⟨⟨"bob", "app1", 300, 100, "at5"⟩, some "AT5",
     ⟨"bob", "app1", 400, 100, "rt5"⟩, some "RT5"⟩ 30
    { accounts := ["bob"],
      authorizations := [{ username := "bob",
                           code_challenge := some (b64urlEncode (sha256Bytes [118])),
                           auth_code := some "CODE1" }],
      clients := [{ client_id := "app1", client_secret_hash := "sec1" }] }
    "bob:CODE1" [118] "app1" "sec1" (by decide)

/-- **C6: the ordinary consent path accepts developer-only scopes.** The
/authorize and /login endpoints call `valid_request_scopes` with neither
optional flag, and with `developer_only = None` the function performs no
developer-only check, contradicting its own docstring ("Scopes that are
developer only are not allowed to be requested") and the spec. The first
conjunct shows a developer-only scope accepted on the ordinary path; the
second and third show the existence half of the claim does hold (unknown
scope name, unknown client both rejected). -/
theorem C6_code_bug :
    valid_request_scopes
      { clients := [{ client_id := "app1",
                      scopes := [{ name := "admin_stats", developer_only := true }] }] }
      [⟨"app1", "admin_stats"⟩] = true ∧
    valid_request_scopes
      { clients := [{ client_id := "app1",
                      scopes := [{ name := "admin_stats", developer_only := true }] }] }
      [⟨"app1", "missing"⟩] = false ∧
    valid_request_scopes
      { clients := [{ client_id := "app1",
                      scopes := [{ name := "admin_stats", developer_only := true }] }] }
      [⟨"app2", "admin_stats"⟩] = false := by
  decide

/-- **C8: the profile-defaults type check crashes instead of returning a
verdict.** With `from datetime import datetime` in scope, the pattern
`case datetime.datetime:` raises `AttributeError` on every call, so
`validate_profile_defaults` raises for ANY client whose defaults contain a
key that exists in the schema — an ill-typed default (first conjunct) and
even a well-typed one (second conjunct) crash rather than returning a
bool; only the key-existence check, which runs first, still returns
`False` (third conjunct). The scope-schema half of the claim does hold
(fourth and fifth conjuncts: duplicate scope names and unknown scope
attributes are rejected). -/
theorem C8_code_bug :
    validate_profile_defaults
      { client_id := "app1",
        profile_metadata_attributes := [{ name := "nickname", type := .string }],
        profile_defaults := [("nickname", .vInt 3)] } = Except.error PyErr.attributeError ∧
    validate_profile_defaults
      { client_id := "app1",
        profile_metadata_attributes := [{ name := "nickname", type := .string }],
        profile_defaults := [("nickname", .vStr "bob")] } = Except.error PyErr.attributeError ∧
    validate_profile_defaults
      { client_id := "app1",
        profile_metadata_attributes := [{ name := "nickname", type := .string }],
        profile_defaults := [("age", .vInt 3)] } = Except.ok false ∧
    validate_client_scopes
      { client_id := "app1",
        scopes := [{ name := "s1" }, { name := "s1" }] } = false ∧
    validate_client_scopes
      { client_id := "app1",
        scopes := [{ name := "s1",
                     associated_attributes := { client_attributes := [⟨"ghost"⟩] } }],
        profile_metadata_attributes := [{ name := "nickname", type := .string }] } = false :=
  ⟨rfl, rfl, rfl, by decide, by decide⟩

/-- **C7 (confirmed).** Registration is atomic across the two stores: it
returns 0 exactly when both the account write and the authorization-record
write succeed; on success both records are present; on failure no account
for the new username remains persisted (if the authorization write failed
after the account write, the just-created account was deleted again). -/
theorem C7_theorem (okAccount okAuthorization : Bool) (db : DB) (u : String)
    (haccount : u ∉ db.accounts) :
    ((register_account_in_db_collections okAccount okAuthorization db u).1 = 0 ↔
       okAccount = true ∧ okAuthorization = true) ∧
    ((register_account_in_db_collections okAccount okAuthorization db u).1 = 0 →
       u ∈ (register_account_in_db_collections okAccount okAuthorization db u).2.accounts ∧
       ∃ a ∈ (register_account_in_db_collections okAccount okAuthorization db u).2.authorizations,
         a.username = u) ∧
    ((register_account_in_db_collections okAccount okAuthorization db u).1 ≠ 0 →
       u ∉ (register_account_in_db_collections okAccount okAuthorization db u).2.accounts) := by
  cases okAccount with
  | false =>
    simp [register_account_in_db_collections, add_account, haccount]
  | true =>
    cases okAuthorization with
    | false =>
      have hdel : (delete_account { db with accounts := db.accounts ++ [u] } u).2.accounts
          = db.accounts := by
        have hany : (db.accounts ++ [u]).any (fun x => x == u) = true := by
          simp [List.any_eq_true]
        simp [delete_account, hany, removeAccount_append_not_mem db.accounts u haccount]
      simp only [register_account_in_db_collections, add_account, add_authorization,
        if_true, if_false, Bool.false_eq_true, ite_false, ite_true]
      norm_num
      rw [hdel]
      exact haccount
    | true =>
      refine ⟨by simp [register_account_in_db_collections, add_account, add_authorization],
        fun _ => ⟨?_, ?_⟩,
        by simp [register_account_in_db_collections, add_account, add_authorization]⟩
      · simp [register_account_in_db_collections, add_account, add_authorization]
      · refine ⟨{ username := u }, ?_, rfl⟩
        simp [register_account_in_db_collections, add_account, add_authorization]

/-- **C7 witness**: a concrete run with an empty store where the
authorization write fails: registration reports -1 and the store holds no
account for the user. -/
theorem C7_witness :
    ((register_account_in_db_collections true false {} "alice").1 = 0 ↔
       true = true ∧ false = true) ∧
    ((register_account_in_db_collections true false {} "alice").1 = 0 →
       "alice" ∈ (register_account_in_db_collections true false {} "alice").2.accounts ∧
       ∃ a ∈ (register_account_in_db_collections true false {} "alice").2.authorizations,
         a.username = "alice") ∧
    ((register_account_in_db_collections true false {} "alice").1 ≠ 0 →
       "alice" ∉ (register_account_in_db_collections true false {} "alice").2.accounts) :=
  C7_theorem true false {} "alice" (by simp)

/-- **C9 (confirmed).** A freshly provisioned profile's metadata has
duplicate-free keys, and looking up any name yields: the (unique) default
value for a declared attribute named in `profile_defaults`, the `None`
value for a declared attribute without a default, and no key at all for a
name that is not a declared attribute — so default entries whose key is
not declared add nothing. -/
theorem C9_theorem (attrs : List MetadataAttribute) (defaults : List (String × PyVal))
    (name : String) (hnd : (defaults.map Prod.fst).Nodup) :
    ((generate_default_metadata attrs defaults).map Prod.fst).Nodup ∧
    pyLookup (generate_default_metadata attrs defaults) name =
      (if attrs.any (fun m => m.name == name) then
        match defaults.find? (fun p => p.1 == name) with
        | some p => some (some p.2)
        | none => some none
      else none) := by
  unfold generate_default_metadata
  constructor
  · rw [applyProfileDefaults_keys]
    exact pyDictOf_nodup _
  · rw [applyProfileDefaults_lookup defaults _ name hnd]
    have hany : (pyDictOf (attrs.map (fun m => (m.name, (none : Option PyVal))))).any
        (fun q => q.1 == name) = attrs.any (fun m => m.name == name) := by
      rw [pyDictOf_any]
      induction attrs with
      | nil => rfl
      | cons m ms ih => simp only [List.map_cons, List.any_cons, ih]
    rw [hany]
    cases hatt : attrs.any (fun m => m.name == name) with
    | false =>
      rw [if_neg (by simp), if_neg (by simp)]
      apply pyLookup_eq_none_of_any_false
      rw [pyDictOf_any]
      cases hx : (attrs.map (fun m => (m.name, (none : Option PyVal)))).any
          (fun p => p.1 == name) with
      | false => rfl
      | true =>
        rw [List.any_eq_true] at hx
        obtain ⟨p, hp, hpq⟩ := hx
        rw [List.mem_map] at hp
        obtain ⟨m, hm, hmp⟩ := hp
        rw [List.any_eq_false] at hatt
        exact absurd (by rw [← hmp] at hpq; exact hpq) (hatt m hm)
    | true =>
      rw [if_pos rfl, if_pos rfl]
      cases hf : defaults.find? (fun p => p.1 == name) with
      | some p => rfl
      | none =>
        apply pyLookup_of_const_values _ _ (none : Option PyVal)
        · apply pyDictOf_const_values
          intro p hp
          rw [List.mem_map] at hp
          obtain ⟨m, _, hmp⟩ := hp
          rw [← hmp]
        · rw [pyDictOf_any]
          rw [List.any_eq_true] at hatt ⊢
          obtain ⟨m, hm, hmq⟩ := hatt
          exact ⟨(m.name, none), List.mem_map_of_mem _ hm, hmq⟩

/-- **C9 witness**: a concrete client schema with attributes `a` (string,
default `"x"`) and `b` (integer, no default) plus a stray default key `zz`:
the provisioned metadata is exactly `{a: "x", b: None}`. -/
theorem C9_witness :
    ((generate_default_metadata
        [{ name := "a", type := .string }, { name := "b", type := .integer }]
        [("a", .vStr "x"), ("zz", .vInt 1)]).map Prod.fst).Nodup ∧
    pyLookup (generate_default_metadata
        [{ name := "a", type := .string }, { name := "b", type := .integer }]
        [("a", .vStr "x"), ("zz", .vInt 1)]) "a" =
      (if ([{ name := "a", type := .string },
            { name := "b", type := (.integer : MetadataType) }] :
              List MetadataAttribute).any (fun m => m.name == "a") then
        match ([("a", PyVal.vStr "x"), ("zz", PyVal.vInt 1)] :
            List (String × PyVal)).find? (fun p => p.1 == "a") with
        | some p => some (some p.2)
        | none => some none
      else none) :=
  C9_theorem
    [{ name := "a", type := .string }, { name := "b", type := .integer }]
    [("a", .vStr "x"), ("zz", .vInt 1)] "a" (by decide)

/-- **C10 (confirmed).** Wrapping and unwrapping an authorization code
round-trips whenever the username contains no `':'`; the plaintext code may
itself contain `':'` and is still recovered, because decryption takes the
suffix after the first `':'` by index. For the username `"a:b"` (which
contains `':'`), the recovered username `"a"` is a strict prefix of the
original and the recovered code `"b:c"` differs from the generated `"c"`. -/
theorem C10_theorem (encOpaque : List Char → String) (decOpaque : String → List Char)
    (hround : ∀ s, decOpaque (encOpaque s) = s) :
    (∀ username auth_code : List Char, ':' ∉ username →
       decrypt_authorization_code decOpaque
         (generate_authorization_code encOpaque username auth_code).1 =
           (username, auth_code)) ∧
    (decrypt_authorization_code decOpaque
       (generate_authorization_code encOpaque ['a', ':', 'b'] ['c']).1 =
         (['a'], ['b', ':', 'c']) ∧
     (['a'] : List Char) ≠ ['a', ':', 'b'] ∧
     List.IsPrefix ['a'] ['a', ':', 'b'] ∧
     (['b', ':', 'c'] : List Char) ≠ ['c']) := by
  constructor
  · intro username auth_code hc
    have htake : (username ++ ':' :: auth_code).takeWhile (fun ch => ch ≠ ':') = username := by
      apply takeWhile_append_cons
      · intro x hx
        simp only [ne_eq, decide_eq_true_eq]
        intro hxe
        exact hc (hxe ▸ hx)
      · simp
    simp only [decrypt_authorization_code, generate_authorization_code, hround, htake,
      drop_append_cons]
  · refine ⟨?_, by decide, ⟨[':', 'b'], by decide⟩, by decide⟩
    simp only [decrypt_authorization_code, generate_authorization_code, hround]
    decide

/-- **C10 witness**: the theorem instantiated with the identity
encryption (`String.mk` / `String.data`), which satisfies the round-trip
law definitionally. -/
theorem C10_witness :
    (∀ username auth_code : List Char, ':' ∉ username →
       decrypt_authorization_code String.data
         (generate_authorization_code String.mk username auth_code).1 =
           (username, auth_code)) ∧
    (decrypt_authorization_code String.data
       (generate_authorization_code String.mk ['a', ':', 'b'] ['c']).1 =
         (['a'], ['b', ':', 'c']) ∧
     (['a'] : List Char) ≠ ['a', ':', 'b'] ∧
     List.IsPrefix ['a'] ['a', ':', 'b'] ∧
     (['b', ':', 'c'] : List Char) ≠ ['c']) :=
  C10_theorem String.mk String.data (fun _ => rfl)

end OpenAuth
